import Mathlib

/-!
Verification of the chart-generation pipeline (`chart_agent` and the
`simple_data_generator` / `simple_chart_generator` helpers).

The Python source is shallowly embedded: every external effect (LLM call,
filesystem listing, file read/write, subprocess run) is an explicit input of
`Except`/`Option` type, and each pipeline node is a pure function from the
shared state (plus its effect inputs) to the updated state, exactly mirroring
the dictionary update each Python node returns.
-/

deriving instance DecidableEq for Except

namespace ChartAgent

/-! ## Python string primitives, embedded on `List Char` -/

/-- Whitespace characters removed by Python `str.strip()`. -/
def isPyWS (c : Char) : Bool :=
  c = ' ' || c = '\t' || c = '\n' || c = '\r' || c = '\x0b' || c = '\x0c'

/-- `str.strip()` on a character list. -/
def stripChars (cs : List Char) : List Char :=
  ((cs.dropWhile isPyWS).reverse.dropWhile isPyWS).reverse

/-- Python `str.strip()`. -/
def pyStrip (s : String) : String := String.mk (stripChars s.data)

/-- Python `str.lower()` (ASCII range, which is all the source uses). -/
def pyLower (s : String) : String := String.mk (s.data.map Char.toLower)

/-- Contiguous-sublist test on character lists. -/
def isInfixChars (pat : List Char) : List Char → Bool
  | [] => pat.isEmpty
  | c :: cs => pat.isPrefixOf (c :: cs) || isInfixChars pat cs

/-- Python `needle in haystack` substring test. -/
def pyIn (needle haystack : String) : Bool :=
  isInfixChars needle.data haystack.data

/-- Split off the part before and after the first occurrence of `pat`
(`none` when `pat` does not occur). Mirrors one step of Python `str.split`. -/
def splitFirst (pat : List Char) : List Char → Option (List Char × List Char)
  | [] => if pat.isEmpty then some ([], []) else none
  | c :: cs =>
    if pat.isPrefixOf (c :: cs) then some ([], (c :: cs).drop pat.length)
    else
      match splitFirst pat cs with
      | some (a, b) => some (c :: a, b)
      | none => none

/-! ## Data model (`chart_agent/models/agent_state.py`) -/

/-- `ProcessingStep` enum. -/
inductive ProcessingStep where
  | analyzeRequest
  | generateData
  | searchKnowledgeBase
  | generateCode
  | saveOutputs
  | error
  | complete
deriving DecidableEq, Repr

/-- Atomic JSON values occurring in the synthesized datasets. -/
inductive PyAtom where
  | s (v : String)
  | i (v : Int)
deriving DecidableEq, Repr

/-- A synthesized dataset: a JSON object mapping field names to arrays,
as produced by `simple_data_generator.generate_data`. -/
def DataDict := List (String × List PyAtom)

instance : DecidableEq DataDict := by
  unfold DataDict; infer_instance

/-- `ChartRequest` (pydantic model). -/
structure ChartRequest where
  chart_description : String
  data_topic : Option String := none
  data_details : Option String := none
  data_rows : Option Nat := some 50
  input_data_path : Option String := none
  output_chart_path : String := "output_chart.html"
  output_code_path : String := "generated_chart.py"
  chart_type_hint : Option String := none
deriving DecidableEq, Repr

/-- A LangChain message: content plus the optional `name` attribute the
nodes attach. -/
structure Message where
  content : String
  name : Option String := none
deriving DecidableEq, Repr

/-- The `output_files` dictionary built by `save_outputs_node`:
`code` is always a path, `chart` and `data` may be `None`. -/
structure OutputFiles where
  code : String
  chart : Option String
  data : Option String
deriving DecidableEq, Repr

/-- `ChartAgentState` (TypedDict). `messages` accumulates (its reducer is
`operator.add`); every other field is overwritten by node updates. -/
structure ChartAgentState where
  messages : List Message
  request : ChartRequest
  current_step : ProcessingStep
  data_source : Option String := none
  generated_data : Option DataDict := none
  data_analysis : Option DataDict := none
  selected_chart_type : Option String := none
  chart_examples : Option (List (String × String)) := none
  kb_reasoning : Option String := none
  generated_code : Option String := none
  imports_required : Option (List String) := none
  customizations_applied : Option (List String) := none
  output_files : Option OutputFiles := none
  errors : Option (List String) := none
  warnings : Option (List String) := none
  next : Option String := none
deriving DecidableEq

/-! ## Chart-type selection (`chart_agent/nodes/knowledge_base.py`) -/

/-- The static keyword→type table of `select_chart_type_with_llm`,
in Python dict insertion order (iteration order of `keyword_map.items()`). -/
def keywordMap : List (String × String) :=
  [("line", "Line"), ("trend", "Line"), ("time series", "Line"),
   ("bar", "Bar"), ("column", "Bar"), ("compare", "Bar"), ("comparison", "Bar"),
   ("pie", "Pie"), ("donut", "Pie"), ("distribution", "Pie"), ("percentage", "Pie"),
   ("scatter", "Scatter"), ("correlation", "Scatter"), ("bubble", "Scatter"),
   ("bar3d", "Bar3D"), ("3d bar", "Bar3D"),
   ("line3d", "Line3D"), ("3d line", "Line3D"),
   ("scatter3d", "Scatter3D"), ("3d scatter", "Scatter3D"),
   ("surface", "Surface3D"), ("surface3d", "Surface3D"),
   ("map", "Map"), ("geo", "Geo"), ("geographic", "Geo"),
   ("map3d", "Map3D"), ("3d map", "Map3D"),
   ("globe", "MapGlobe"), ("amap", "AMap"), ("bmap", "BMap"), ("baidu", "BMap"),
   ("heat", "Heatmap"), ("heatmap", "Heatmap"),
   ("radar", "Radar"), ("spider", "Radar"),
   ("funnel", "Funnel"), ("gauge", "Gauge"), ("meter", "Gauge"),
   ("sankey", "Sankey"), ("flow", "Sankey"),
   ("tree", "Tree"), ("hierarchy", "Tree"),
   ("treemap", "Treemap"), ("sunburst", "Sunburst"), ("calendar", "Calendar"),
   ("boxplot", "Boxplot"), ("box plot", "Boxplot"),
   ("candlestick", "Candlestick"), ("stock", "Candlestick"),
   ("liquid", "Liquid"), ("water", "Liquid"),
   ("polar", "Polar"), ("radial", "Polar"), ("parallel", "Parallel"),
   ("pictorial", "PictorialBar"), ("icon", "PictorialBar"),
   ("wordcloud", "WordCloud"), ("word cloud", "WordCloud"),
   ("themeriver", "ThemeRiver"), ("river", "ThemeRiver"),
   ("graph", "Graph"), ("network", "Graph"), ("graphgl", "GraphGL"),
   ("grid", "Grid"), ("overlap", "Overlap"), ("page", "Page"),
   ("tab", "Tab"), ("table", "Table"),
   ("timeline", "Timeline"), ("animation", "Timeline"),
   ("effect", "EffectScatter"), ("ripple", "EffectScatter"),
   ("dataset", "Dataset"), ("graphic", "Graphic"), ("image", "Image"),
   ("theme", "Theme")]

/-- The `for keyword, chart_type in keyword_map.items()` loop: first entry
whose keyword occurs in the lowered description and whose type is available;
`"Line"` when none matches. -/
def keywordLookup : List (String × String) → String → List String → String
  | [], _, _ => "Line"
  | (k, t) :: rest, descLower, avail =>
    if pyIn k descLower && avail.contains t then t
    else keywordLookup rest descLower avail

/-- `select_chart_type_with_llm`. The LLM call outcome is the explicit
input `llm`: `.ok content` is a reply, `.error e` an exception from the
call (the `except` branch falls back to keyword matching). -/
def select_chart_type_with_llm (chartDescription : String) (availableTypes : List String)
    (llm : Except String String) : String :=
  match llm with
  | .ok content =>
    let selected := pyStrip content
    if availableTypes.contains selected then selected
    else "Line"
  | .error _ =>
    keywordLookup keywordMap (pyLower chartDescription) availableTypes

/-! ## Data synthesis (`simple_data_generator.py`) -/

/-- The fixed fallback dataset inside `simple_data_generator.generate_data`
(12 months, values 100–200, category "A"×6 then "B"×6). -/
def simpleGeneratorFallback : DataDict :=
  [("months", [.s "Jan", .s "Feb", .s "Mar", .s "Apr", .s "May", .s "Jun",
               .s "Jul", .s "Aug", .s "Sep", .s "Oct", .s "Nov", .s "Dec"]),
   ("values", [.i 100, .i 120, .i 115, .i 140, .i 135, .i 160,
               .i 155, .i 180, .i 175, .i 190, .i 185, .i 200]),
   ("category", [.s "A", .s "A", .s "A", .s "A", .s "A", .s "A",
                 .s "B", .s "B", .s "B", .s "B", .s "B", .s "B"])]

/-- `simple_data_generator.generate_data`. The whole `try` body (LLM call,
fence stripping, `json.loads`) is summarized by its outcome `attempt`:
`.ok d` is a successfully parsed dataset, `.error e` any exception raised
inside the `try` (call failure or unparseable reply). The `except` branch
returns the internal fallback; no exception escapes. -/
def generate_data (attempt : Except String DataDict) : DataDict :=
  match attempt with
  | .ok d => d
  | .error _ => simpleGeneratorFallback

/-! ## Data generation node (`chart_agent/nodes/data_generation.py`) -/

/-- The fallback dataset in `generate_data_node`'s own `except` branch
(6 months, values 100–160). -/
def nodeFallbackData : DataDict :=
  [("labels", [.s "Jan", .s "Feb", .s "Mar", .s "Apr", .s "May", .s "Jun"]),
   ("values", [.i 100, .i 120, .i 115, .i 140, .i 135, .i 160])]

/-- `analyze_request_node`: appends an analysis message and sets the step. -/
def analyze_request_node (s : ChartAgentState) : ChartAgentState :=
  let rows := match s.request.data_rows with
    | some n => if n = 0 then 20 else n
    | none => 20
  let topicText := match s.request.data_topic with
    | some t => if t = "" then "Derived from description" else t
    | none => "Derived from description"
  { s with
    messages := s.messages ++
      [⟨"Request Analysis Complete:\n    - Chart Description: " ++
          s.request.chart_description ++
          "\n    - Data Topic: " ++ topicText ++
          "\n    - Rows Requested: " ++ toString rows ++
          "\n    - Output will be saved in results/ folder\n    \n    Proceeding to generate data...",
        some "analyze_request"⟩],
    current_step := .analyzeRequest }

/-- `generate_data_node`. `llm` is the outcome of the `try` body inside
`simple_data_generator.generate_data` (which never raises); `nodeTry` is
the outcome of the node's own `try` block around the import and the
reference-JSON write (`json.dump`), whose failure triggers the node's
6-month fallback; `ts` is the `datetime.now()` timestamp string. -/
def generate_data_node (s : ChartAgentState) (llm : Except String DataDict)
    (nodeTry : Except String Unit) (ts : String) : ChartAgentState :=
  let rows := match s.request.data_rows with
    | some n => if n = 0 then 20 else n
    | none => 20
  match nodeTry with
  | .ok _ =>
    let data := generate_data llm
    let jsonFilename := "data_" ++ ts ++ ".json"
    let jsonPath := "/home/ilya/Desktop/v7labs_test/results/" ++ jsonFilename
    { s with
      messages := s.messages ++
        [⟨"Generated data with " ++ toString data.length ++
            " fields and approximately " ++ toString rows ++
            " data points. Saved to " ++ jsonFilename,
          some "generate_data"⟩],
      generated_data := some data,
      data_source := some jsonPath,
      current_step := .generateData }
  | .error e =>
    { s with
      messages := s.messages ++
        [⟨"Using fallback data due to error: " ++ e, some "generate_data"⟩],
      generated_data := some nodeFallbackData,
      data_source := none,
      current_step := .generateData,
      warnings := some ["Data generation error: " ++ e] }

/-! ## Knowledge-base node (`chart_agent/nodes/knowledge_base.py`) -/

/-- The hardcoded example snippet substituted in `search_knowledge_base_node`
when no example file can be read. -/
def fallbackExampleCode : String :=
  "from pyecharts import options as opts\nfrom pyecharts.charts import Line\n\nx_data = [\"Mon\", \"Tue\", \"Wed\", \"Thu\", \"Fri\", \"Sat\", \"Sun\"]\ny_data = [820, 932, 901, 934, 1290, 1330, 1320]\n\n(\n    Line()\n    .add_xaxis(x_data)\n    .add_yaxis(\"\", y_data)\n    .set_global_opts(title_opts=opts.TitleOpts(title=\"Chart\"))\n    .render(\"chart.html\")\n)"

/-- `search_knowledge_base_node`. `galleryTypes` is the (sorted) directory
listing returned by `get_available_chart_types`; `llm` the chart-type LLM
outcome; `exampleRead` the result of `get_example_from_folder` (`none` for a
missing folder / no files / read failure). An empty listing falls back to
the four basic types; a falsy example (None or empty) falls back to the
hardcoded snippet. -/
def search_knowledge_base_node (s : ChartAgentState) (galleryTypes : List String)
    (llm : Except String String) (exampleRead : Option String) : ChartAgentState :=
  let available := if galleryTypes.isEmpty then ["Line", "Bar", "Pie", "Scatter"]
                   else galleryTypes
  let selectedType := select_chart_type_with_llm s.request.chart_description available llm
  let exampleCode := match exampleRead with
    | some c => if c = "" then fallbackExampleCode else c
    | none => fallbackExampleCode
  { s with
    messages := s.messages ++
      [⟨"Selected " ++ selectedType ++ " chart from " ++
          toString available.length ++ " available types",
        some "search_knowledge_base"⟩],
    chart_examples := some [("example", exampleCode)],
    selected_chart_type := some selectedType,
    current_step := .searchKnowledgeBase }

/-! ## Code generation (`simple_chart_generator.py`) -/

/-- The markdown fence-stripping applied to the LLM reply:
`code.split("```python")[1].split("```")[0]` when a python fence is present,
else `code.split("```")[1].split("```")[0]` when a bare fence is present,
else the reply unchanged. -/
def stripFences (code : String) : String :=
  match splitFirst "```python".data code.data with
  | some (_, after) =>
    match splitFirst "```".data after with
    | some (inner, _) => String.mk inner
    | none => String.mk after
  | none =>
    match splitFirst "```".data code.data with
    | some (_, after) =>
      match splitFirst "```".data after with
      | some (inner, _) => String.mk inner
      | none => String.mk after
    | none => code

/-- Python `repr` of an atomic value (`{x!r}` in the f-string templates). -/
def pyReprAtom : PyAtom → String
  | .s v => "'" ++ v ++ "'"
  | .i v => toString v

/-- Python `repr` of an array value. -/
def pyReprList (xs : List PyAtom) : String :=
  "[" ++ String.intercalate ", " (xs.map pyReprAtom) ++ "]"

/-- Python `str.replace('\\', '/')`. -/
def normalizeSlashes (s : String) : String :=
  String.mk (s.data.map fun c => if c = '\\' then '/' else c)

/-- `generate_fallback_code`: the parametrized template used when the
code-generation LLM call fails. `theme` stands for the `random.choice`
over the colorful-themes list. -/
def generate_fallback_code (data : DataDict) (description : String)
    (output_file : String) (chart_type : Option String) (theme : String) : String :=
  let outputFile := normalizeSlashes output_file
  let keys := data.map (·.1)
  let x_key := keys.headD "x"
  let y_key := if keys.length > 1 then keys.getD 1 "y" else keys.headD "y"
  let x_data := (data.lookup x_key).getD [.s "A", .s "B", .s "C"]
  let y_data := (data.lookup y_key).getD [.i 1, .i 2, .i 3]
  let descLower := pyLower description
  let chartType := match chart_type with
    | some t => if t = "" then
        (if pyIn "bar" descLower then "Bar"
         else if pyIn "pie" descLower then "Pie"
         else if pyIn "scatter" descLower then "Scatter"
         else "Line")
      else t
    | none =>
      if pyIn "bar" descLower then "Bar"
      else if pyIn "pie" descLower then "Pie"
      else if pyIn "scatter" descLower then "Scatter"
      else "Line"
  "from pyecharts import options as opts\nfrom pyecharts.charts import " ++
    chartType ++ "\nfrom pyecharts.globals import ThemeType\n\nx_data = " ++
    pyReprList x_data ++ "\ny_data = " ++ pyReprList y_data ++ "\n\n(\n    " ++
    chartType ++ "(init_opts=opts.InitOpts(theme=ThemeType." ++ theme ++
    "))\n    .add_xaxis(x_data)\n    .add_yaxis(\"\", y_data)\n    .set_global_opts(\n        title_opts=opts.TitleOpts(title=\"" ++
    (description.take 50) ++ "\")\n    )\n    .render(\"" ++ outputFile ++ "\")\n)"

/-- `generate_chart_code`: on a reply, strip fences and `strip()`;
on any exception in the `try` body, fall back to `generate_fallback_code`
(no exception escapes). -/
def generate_chart_code (data : DataDict) (chart_description : String)
    (example_code : Option String) (output_file : String)
    (llm : Except String String) (theme : String) : String :=
  match llm with
  | .ok content => pyStrip (stripFences content)
  | .error _ => generate_fallback_code data chart_description output_file none theme

/-! ## Code generation node (`chart_agent/nodes/code_generation.py`) -/

/-- `generate_code_node`. `nodeTry` is the outcome of the node-level `try`
up to the `generate_chart_code` call (the import machinery); `llm` and
`theme` feed `generate_chart_code` itself, which never raises. Every state
reaching this node has `generated_data` set, so the stored dataset is read
with default `[]` (Python `state.get("generated_data", {})`). -/
def generate_code_node (s : ChartAgentState) (nodeTry : Except String Unit)
    (llm : Except String String) (theme : String) : ChartAgentState :=
  let data := s.generated_data.getD []
  let examples := s.chart_examples.getD []
  match nodeTry with
  | .ok _ =>
    let exampleCode : Option String := match examples with
      | [] => none
      | (_, v) :: _ => some v
    let code := generate_chart_code data s.request.chart_description exampleCode
      s.request.output_chart_path llm theme
    { s with
      messages := s.messages ++
        [⟨"Generated visualization code (" ++ toString code.length ++ " chars)",
          some "generate_code"⟩],
      generated_code := some code,
      current_step := .generateCode }
  | .error e =>
    let keys := if data.isEmpty then ["x", "y"] else data.map (·.1)
    let x_key := keys.headD "x"
    let y_key := if keys.length > 1 then keys.getD 1 "x" else keys.headD "x"
    let x_data := (data.lookup x_key).getD [.s "A", .s "B", .s "C"]
    let y_data := (data.lookup y_key).getD [.i 1, .i 2, .i 3]
    let chartClass := if s.selected_chart_type = some "Bar" then "Bar"
      else if s.selected_chart_type = some "Pie" then "Pie"
      else if s.selected_chart_type = some "Scatter" then "Scatter"
      else "Line"
    let fallbackCode := "from pyecharts import options as opts\nfrom pyecharts.charts import " ++
      chartClass ++ "\n\nx_data = " ++ pyReprList x_data ++ "\ny_data = " ++
      pyReprList y_data ++ "\n\n(\n    " ++ chartClass ++
      "()\n    .add_xaxis(x_data)\n    .add_yaxis(\"\", y_data)\n    .set_global_opts(\n        title_opts=opts.TitleOpts(title=\"Chart\")\n    )\n    .render(\"output.html\")\n)"
    { s with
      messages := s.messages ++
        [⟨"Using fallback code due to error: " ++ e, some "generate_code"⟩],
      generated_code := some fallbackCode,
      current_step := .generateCode,
      warnings := some ["Code generation error: " ++ e] }

/-! ## The output-path regex rewrite (`chart_generation.py`, lines 57–62)

`re.sub(r'\.render\(["\'].*?["\']\)', f'.render("{chart_path}")', code)`:
literal `.render(`, one quote character, a lazy run of non-newline
characters, a quote character, `)`. Matches are found leftmost-first and
do not overlap; the lazy run takes the shortest extension at which the
closing `["\')` can match. -/

/-- The two characters matched by the `["\']` class. -/
def isQuote (c : Char) : Bool := c = '"' || c = '\''

/-- Match the part after the opening quote: the shortest run of non-newline
characters followed by a quote and `)`. Returns the remainder after the
match. -/
def matchTail : List Char → Option (List Char)
  | [] => none
  | c :: cs =>
    if isQuote c then
      match cs with
      | ')' :: rest => some rest
      | _ => matchTail cs
    else if c = '\n' then none
    else matchTail cs

/-- The literal head `.render(` of the pattern. -/
def renderHead : List Char := ['.', 'r', 'e', 'n', 'd', 'e', 'r', '(']

/-- Try to match the whole pattern at the start of `cs`; return the
remainder after the match. -/
def matchRender (cs : List Char) : Option (List Char) :=
  if renderHead.isPrefixOf cs then
    match cs.drop 8 with
    | q :: rest => if isQuote q then matchTail rest else none
    | [] => none
  else none

/-- The scanning loop of `re.sub`, fuel-indexed so that it is structurally
recursive (the fuel dominates the length of the remaining input): at each
position try the pattern; on a match emit the replacement and continue after
the match, otherwise emit the character and advance by one. -/
def subAuxF (repl : List Char) : Nat → List Char → List Char
  | 0, _ => []
  | _ + 1, [] => []
  | fuel + 1, c :: cs' =>
    match matchRender (c :: cs') with
    | some rest => repl ++ subAuxF repl fuel rest
    | none => c :: subAuxF repl fuel cs'

/-- The scanning loop of `re.sub` at its natural fuel. -/
def subAux (repl : List Char) (cs : List Char) : List Char :=
  subAuxF repl cs.length cs

/-- The replacement text `f'.render("{chart_path}")'`. -/
def renderRepl (chartPath : String) : List Char :=
  (".render(\"" ++ chartPath ++ "\")").data

/-- The `re.sub` call of `save_outputs_node`. -/
def renderSub (chartPath : String) (code : String) : String :=
  String.mk (subAux (renderRepl chartPath) code.data)

/-- Decidable check: does the pattern match anywhere in `cs`? -/
def hasRenderCall : List Char → Bool
  | [] => false
  | c :: cs => (matchRender (c :: cs)).isSome || hasRenderCall cs

/-! ## Output stage (`chart_agent/nodes/chart_generation.py`) -/

/-- `f"chart_{timestamp}.py"`. -/
def codeFilename (ts : String) : String := "chart_" ++ ts ++ ".py"

/-- `f"chart_{timestamp}.html"`. -/
def chartFilename (ts : String) : String := "chart_" ++ ts ++ ".html"

/-- The outcome of the `subprocess.run` call: `.ok (returncode, stderr)`
for a completed child, `.error msg` for a raised exception
(`TimeoutExpired` after the fixed 10-second timeout, or any other). -/
def RunOutcome := Except String (Int × String)

/-- `save_outputs_node`. `resultsPath` is the module-level `RESULTS_PATH`
(the joins with `os.path.abspath` are modeled as plain path concatenation);
`ts` the `datetime.now()` timestamp; `writeRes` the outcome of the
`open(code_path, 'w')` write, which is *outside* any `try` and therefore
propagates (`.error`) out of the node; `run` the subprocess outcome;
`chartExists` the `os.path.exists(chart_path)` check afterwards.
On success the node also reports the file it wrote (path, contents). -/
def save_outputs_node (s : ChartAgentState) (resultsPath ts : String)
    (writeRes : Except String Unit) (run : RunOutcome) (chartExists : Bool) :
    Except String (ChartAgentState × List (String × String)) :=
  let generatedCode := s.generated_code.getD ""
  if generatedCode = "" then
    .ok ({ s with
      messages := s.messages ++ [⟨"No code was generated to save", some "save_outputs"⟩],
      current_step := .saveOutputs,
      warnings := some ["No code to save"] }, [])
  else
    let codePath := resultsPath ++ "/" ++ codeFilename ts
    let chartPath := resultsPath ++ "/" ++ chartFilename ts
    let rewrittenCode := renderSub chartPath generatedCode
    match writeRes with
    | .error e => .error e
    | .ok _ =>
      let successMessage := match run with
        | .ok (0, _) =>
          "Successfully generated chart:\n- Code: " ++ codeFilename ts ++
            "\n- Chart: " ++ chartFilename ts
        | .ok (_, stderr) => "Code saved but execution had issues:\n" ++ stderr
        | .error e => "Code saved to " ++ codeFilename ts ++ " but couldn't execute: " ++ e
      .ok ({ s with
        messages := s.messages ++ [⟨successMessage, some "save_outputs"⟩],
        output_files := some
          { code := codePath,
            chart := if chartExists then some chartPath else none,
            data := s.data_source },
        current_step := .saveOutputs }, [(codePath, rewrittenCode)])

/-- `error_handler_node`: summarizes messages mentioning "error"/"failed". -/
def error_handler_node (s : ChartAgentState) : ChartAgentState :=
  let collected := s.messages.filter fun m =>
    pyIn "error" (pyLower m.content) || pyIn "failed" (pyLower m.content)
  let summary :=
    if collected.isEmpty then "Unknown error occurred"
    else "Process encountered errors:\n" ++
      String.intercalate "\n" (collected.map (·.content))
  { s with
    messages := s.messages ++ [⟨summary, some "error_handler"⟩],
    current_step := .error }

/-! ## Orchestration (`chart_agent/core/graph.py` and `core/supervisor.py`) -/

/-- LangGraph's `START` sentinel. -/
def startNode : String := "__start__"

/-- LangGraph's `END` sentinel. -/
def endNode : String := "__end__"

/-- The nodes added by `setup_chart_generation_graph`. -/
def graphNodes : List String :=
  ["analyze_request", "generate_data", "search_knowledge_base",
   "generate_code", "save_outputs", "error_handler"]

/-- The edges added by `setup_chart_generation_graph` — all of them plain
`add_edge` calls, so every edge is unconditional. -/
def graphEdges : List (String × String) :=
  [(startNode, "analyze_request"),
   ("analyze_request", "generate_data"),
   ("generate_data", "search_knowledge_base"),
   ("search_knowledge_base", "generate_code"),
   ("generate_code", "save_outputs"),
   ("save_outputs", endNode),
   ("error_handler", endNode)]

/-- Successor of a node in the compiled graph: the unique static edge out
of it. The compiled graph routes on edges alone — `routeAfter` takes the
shared state only to record that the transition cannot observe it
(`setup_chart_generation_graph` adds no conditional edges). -/
def routeAfter (_s : ChartAgentState) (node : String) : Option String :=
  (graphEdges.find? (fun e => e.1 = node)).map (·.2)

/-- The update half of the `Command` returned by the supervisor. -/
inductive SupervisorUpdate where
  | stepError
  | stepComplete
  | setNext (node : String)
deriving DecidableEq, Repr

/-- The routing closure produced by `make_supervisor_node` (defined in
`core/supervisor.py` but never installed in the compiled graph):
a non-empty `errors` list short-circuits to `END` with
`current_step = ERROR`; otherwise the next node comes from the
`execution_flow` table keyed by the last named message. -/
def supervisor_node (executionFlow : List (String × String))
    (s : ChartAgentState) : String × SupervisorUpdate :=
  match s.errors with
  | some (_ :: _) => (endNode, .stepError)
  | _ =>
    let previousNode :=
      if s.messages.length > 1 then
        match s.messages.reverse.find? (fun m => m.name.getD "" ≠ "") with
        | some m => m.name.getD ""
        | none => startNode
      else startNode
    let goto := (executionFlow.lookup previousNode).getD endNode
    if goto = "FINISH" then (endNode, .stepComplete)
    else (goto, .setNext goto)

/-! ## Pipeline entry point (`chart_agent/main.py`) -/

/-- All external effects consumed by one end-to-end run of the compiled
graph, in pipeline order. -/
structure Effects where
  /-- Outcome of the data-synthesis LLM call plus JSON parse
  (`simple_data_generator.generate_data`'s `try` body). -/
  dataLLM : Except String DataDict
  /-- Outcome of `generate_data_node`'s own `try` (import and the
  reference-JSON `json.dump` write). -/
  dataNodeTry : Except String Unit
  /-- Timestamp used for the reference-JSON filename. -/
  dataTs : String
  /-- Sorted gallery directory listing (`get_available_chart_types`). -/
  galleryTypes : List String
  /-- Outcome of the chart-type selection LLM call. -/
  kbLLM : Except String String
  /-- Result of `get_example_from_folder` for the selected type. -/
  exampleRead : Option String
  /-- Outcome of `generate_code_node`'s import machinery. -/
  codeNodeTry : Except String Unit
  /-- Outcome of the code-generation LLM call (`.ok` carries the raw
  reply text, before fence stripping). -/
  codeLLM : Except String String
  /-- The `random.choice` of theme in `generate_fallback_code`. -/
  theme : String
  /-- `RESULTS_PATH` seen by `save_outputs_node`. -/
  resultsPath : String
  /-- Timestamp used for the output filenames. -/
  saveTs : String
  /-- Outcome of the `open(code_path, 'w')` write in `save_outputs_node`. -/
  saveWrite : Except String Unit
  /-- Outcome of the `subprocess.run` of the saved code. -/
  saveRun : RunOutcome
  /-- Whether the chart file exists after execution. -/
  chartExists : Bool

/-- The initial state built by `generate_chart_async`. -/
def initialState (req : ChartRequest) : ChartAgentState :=
  { messages := [⟨req.chart_description, none⟩],
    request := req,
    current_step := .analyzeRequest }

/-- One `graph.ainvoke` run of the compiled graph: the static edge sequence
`START → analyze_request → generate_data → search_knowledge_base →
generate_code → save_outputs → END`. An exception raised by a node
(here: only the uncaught file write in `save_outputs_node`) aborts the
run. Returns the final state and the files written. -/
def ainvoke (req : ChartRequest) (fx : Effects) :
    Except String (ChartAgentState × List (String × String)) :=
  let s1 := analyze_request_node (initialState req)
  let s2 := generate_data_node s1 fx.dataLLM fx.dataNodeTry fx.dataTs
  let s3 := search_knowledge_base_node s2 fx.galleryTypes fx.kbLLM fx.exampleRead
  let s4 := generate_code_node s3 fx.codeNodeTry fx.codeLLM fx.theme
  save_outputs_node s4 fx.resultsPath fx.saveTs fx.saveWrite fx.saveRun fx.chartExists

/-- The result dictionary returned by `generate_chart_async`. Keys absent
from the exception-branch dictionary are modeled as `none`. -/
structure AgentResult where
  success : Bool
  chart_type : Option String
  data_source : Option String
  generated_code : Option String
  output_files : Option OutputFiles
  errors : Option (List String)
  warnings : Option (List String)
  messages : List String
deriving DecidableEq

/-- `ChartGenerationAgent.generate_chart_async`: run the graph, extract the
result dictionary; any exception from the run is caught at this boundary
and converted into a failure result. -/
def generate_chart_async (req : ChartRequest) (fx : Effects) : AgentResult :=
  match ainvoke req fx with
  | .ok (finalState, _) =>
    { success := finalState.current_step ≠ .error,
      chart_type := finalState.selected_chart_type,
      data_source := finalState.data_source,
      generated_code := finalState.generated_code,
      output_files := finalState.output_files,
      errors := finalState.errors,
      warnings := finalState.warnings,
      messages := finalState.messages.map (·.content) }
  | .error e =>
    { success := false,
      chart_type := none,
      data_source := none,
      generated_code := none,
      output_files := none,
      errors := some [e],
      warnings := none,
      messages := ["Fatal error: " ++ e] }

/-! ## Concrete fixtures used to instantiate the theorems -/

/-- The spec's example request. -/
def reqDemo : ChartRequest :=
  { chart_description := "Create a bar chart showing monthly sales trends",
    data_topic := some "monthly sales",
    output_chart_path := "results/output_chart.html",
    output_code_path := "results/generated_chart.py" }

/-- A benign set of effects: every external call succeeds. -/
def fxDemo : Effects :=
  { dataLLM := .ok [("x", [.s "a"]), ("y", [.i 1])],
    dataNodeTry := .ok (),
    dataTs := "20240101_000000",
    galleryTypes := ["Bar", "Line", "Pie"],
    kbLLM := .ok "Bar",
    exampleRead := some "b.render('x.html')",
    codeNodeTry := .ok (),
    codeLLM := .ok "```python\nb.render('x.html')\n```",
    theme := "MACARONS",
    resultsPath := "results",
    saveTs := "20240101_000001",
    saveWrite := .ok (),
    saveRun := .ok (0, ""),
    chartExists := true }

/-- A mid-pipeline state that has accumulated an error entry. -/
def errDemoState : ChartAgentState :=
  { messages := [],
    request := { chart_description := "demo" },
    current_step := .generateData,
    errors := some ["boom"] }

/-- A state about to enter the output stage with generated code present. -/
def saveDemoState : ChartAgentState :=
  { messages := [],
    request := { chart_description := "demo" },
    current_step := .generateCode,
    data_source := some "/tmp/d.json",
    generated_code := some "b.render('x.html')" }

/-- Does the subprocess outcome count as a failed execution
(non-zero exit code, or a raised exception such as the timeout)? -/
def runFailed : RunOutcome → Prop
  | .ok (rc, _) => rc ≠ 0
  | .error _ => True

/-! ## Supporting lemmas for the `re.sub` embedding -/

theorem matchTail_lt (cs : List Char) (r : List Char) (h : matchTail cs = some r) :
    r.length < cs.length := by
  induction cs generalizing r with
  | nil => simp [matchTail] at h
  | cons c cs ih =>
    unfold matchTail at h
    split at h
    · split at h
      · rename_i rest heq
        cases h
        simp only [List.length_cons]
        omega
      · exact Nat.lt_succ_of_lt (ih r h)
    · split at h
      · cases h
      · exact Nat.lt_succ_of_lt (ih r h)

theorem matchRender_lt (cs : List Char) (r : List Char) (h : matchRender cs = some r) :
    r.length < cs.length := by
  unfold matchRender at h
  split at h
  · split at h
    · rename_i q rest heq
      split at h
      · have h1 := matchTail_lt rest r h
        have h2 : (cs.drop 8).length = cs.length - 8 := List.length_drop 8 cs
        rw [heq] at h2
        simp at h2
        omega
      · cases h
    · cases h
  · cases h

theorem matchRender_nil : matchRender [] = none := by
  simp [matchRender, renderHead, List.isPrefixOf]

theorem subAuxF_nil (repl : List Char) (fuel : Nat) : subAuxF repl fuel [] = [] := by
  cases fuel with
  | zero => rfl
  | succ f => rfl

theorem subAuxF_succ (repl : List Char) (fuel : Nat) (c : Char) (cs' : List Char) :
    subAuxF repl (fuel + 1) (c :: cs') =
      match matchRender (c :: cs') with
      | some rest => repl ++ subAuxF repl fuel rest
      | none => c :: subAuxF repl fuel cs' := rfl

theorem subAuxF_congr (repl : List Char) (f₁ : Nat) :
    ∀ (f₂ : Nat) (cs : List Char), cs.length ≤ f₁ → cs.length ≤ f₂ →
      subAuxF repl f₁ cs = subAuxF repl f₂ cs := by
  induction f₁ with
  | zero =>
    intro f₂ cs h1 _
    have : cs = [] := List.eq_nil_of_length_eq_zero (Nat.le_zero.mp h1)
    subst this
    rw [subAuxF_nil, subAuxF_nil]
  | succ f ih =>
    intro f₂ cs h1 h2
    cases cs with
    | nil => rw [subAuxF_nil, subAuxF_nil]
    | cons c cs' =>
      cases f₂ with
      | zero => simp at h2
      | succ f₂' =>
        rw [subAuxF_succ, subAuxF_succ]
        cases hm : matchRender (c :: cs') with
        | some rest =>
          have hlt := matchRender_lt (c :: cs') rest hm
          simp only [List.length_cons] at h1 h2 hlt
          show repl ++ subAuxF repl f rest = repl ++ subAuxF repl f₂' rest
          rw [ih f₂' rest (by omega) (by omega)]
        | none =>
          simp only [List.length_cons] at h1 h2
          show c :: subAuxF repl f cs' = c :: subAuxF repl f₂' cs'
          rw [ih f₂' cs' (by omega) (by omega)]

theorem subAux_eq (repl : List Char) (cs : List Char) :
    subAux repl cs =
      match matchRender cs with
      | some rest => repl ++ subAux repl rest
      | none =>
        match cs with
        | [] => []
        | c :: cs' => c :: subAux repl cs' := by
  cases cs with
  | nil => simp [subAux, subAuxF_nil, matchRender_nil]
  | cons c cs' =>
    show subAuxF repl (cs'.length + 1) (c :: cs') = _
    rw [subAuxF_succ]
    cases hm : matchRender (c :: cs') with
    | some rest =>
      have hlt := matchRender_lt (c :: cs') rest hm
      simp only [List.length_cons] at hlt
      simp only [subAux]
      rw [subAuxF_congr repl cs'.length rest.length rest (by omega) (by omega)]
    | none => rfl

/-! ## Supporting lemmas: substitution behaviour -/

theorem subAux_of_no_match (repl : List Char) (cs : List Char)
    (h : hasRenderCall cs = false) : subAux repl cs = cs := by
  induction cs with
  | nil => rw [subAux_eq, matchRender_nil]
  | cons c cs' ih =>
    cases hm : matchRender (c :: cs') with
    | some r => rw [hasRenderCall, hm] at h; simp at h
    | none =>
      rw [hasRenderCall, hm] at h
      simp only [Option.isSome_none, Bool.false_or] at h
      rw [subAux_eq, hm]
      show c :: subAux repl cs' = c :: cs'
      exact congrArg (c :: ·) (ih h)

theorem subAux_decomp (repl : List Char) (pre suf rest : List Char)
    (hm : matchRender suf = some rest)
    (hfirst : ∀ t ∈ (pre ++ suf).tails, suf.length < t.length → matchRender t = none) :
    subAux repl (pre ++ suf) = pre ++ repl ++ subAux repl rest := by
  induction pre with
  | nil => rw [List.nil_append, subAux_eq, hm]; rfl
  | cons c pre' ih =>
    have hself : matchRender (c :: (pre' ++ suf)) = none := by
      apply hfirst (c :: (pre' ++ suf))
      · simp [List.tails_cons]
      · simp only [List.length_cons, List.length_append]; omega
    rw [List.cons_append, subAux_eq, hself]
    have hrec : subAux repl (pre' ++ suf) = pre' ++ repl ++ subAux repl rest := by
      apply ih
      intro t ht hlen
      apply hfirst t _ hlen
      rw [List.cons_append, List.tails_cons]
      exact List.mem_cons_of_mem _ ht
    show c :: subAux repl (pre' ++ suf) = c :: pre' ++ repl ++ subAux repl rest
    rw [hrec]
    rfl

/-! ## Supporting lemmas: keyword table lookup -/

theorem keywordLookup_closed (kmap : List (String × String)) (d : String)
    (avail : List String) :
    keywordLookup kmap d avail = "Line" ∨
      avail.contains (keywordLookup kmap d avail) = true := by
  induction kmap with
  | nil => exact Or.inl rfl
  | cons p rest ih =>
    obtain ⟨k, t⟩ := p
    by_cases h : (pyIn k d && avail.contains t) = true
    · right
      have hmem : avail.contains t = true := by
        have h' : pyIn k d = true ∧ avail.contains t = true := by simpa using h
        exact h'.2
      simp only [keywordLookup, h, if_true]
      exact hmem
    · simpa only [keywordLookup, h, if_false] using ih

theorem keywordLookup_no_match (kmap : List (String × String)) (d : String)
    (avail : List String)
    (h : ∀ p ∈ kmap, (pyIn p.1 d && avail.contains p.2) = false) :
    keywordLookup kmap d avail = "Line" := by
  induction kmap with
  | nil => rfl
  | cons p rest ih =>
    obtain ⟨k, t⟩ := p
    have hp := h (k, t) (List.mem_cons_self _ _)
    simp only [keywordLookup, hp, Bool.false_eq_true, if_neg, if_false]
    exact ih fun q hq => h q (List.mem_cons_of_mem _ hq)

theorem keywordLookup_first (pre : List (String × String)) (k t : String)
    (post : List (String × String)) (d : String) (avail : List String)
    (hpre : ∀ p ∈ pre, (pyIn p.1 d && avail.contains p.2) = false)
    (hk : (pyIn k d && avail.contains t) = true) :
    keywordLookup (pre ++ (k, t) :: post) d avail = t := by
  induction pre with
  | nil =>
    rw [List.nil_append]
    simp only [keywordLookup, hk, if_true]
  | cons p rest ih =>
    obtain ⟨k', t'⟩ := p
    have hp := hpre (k', t') (List.mem_cons_self _ _)
    simp only [List.cons_append, keywordLookup, hp, Bool.false_eq_true, if_false]
    exact ih fun q hq => hpre q (List.mem_cons_of_mem _ hq)

/-! ## Supporting lemmas: node field preservation -/

theorem generate_code_node_selected (s : ChartAgentState) (nt : Except String Unit)
    (llm : Except String String) (th : String) :
    (generate_code_node s nt llm th).selected_chart_type = s.selected_chart_type := by
  cases nt <;> rfl

theorem generate_code_node_output_files (s : ChartAgentState) (nt : Except String Unit)
    (llm : Except String String) (th : String) :
    (generate_code_node s nt llm th).output_files = s.output_files := by
  cases nt <;> rfl

theorem search_kb_selected (s : ChartAgentState) (g : List String)
    (llm : Except String String) (ex : Option String) :
    (search_knowledge_base_node s g llm ex).selected_chart_type =
      some (select_chart_type_with_llm s.request.chart_description
        (if g.isEmpty then ["Line", "Bar", "Pie", "Scatter"] else g) llm) := rfl

theorem save_outputs_ok_fields (s : ChartAgentState) (p ts : String)
    (w : Except String Unit) (r : RunOutcome) (ce : Bool)
    (s' : ChartAgentState) (files : List (String × String))
    (h : save_outputs_node s p ts w r ce = .ok (s', files)) :
    s'.current_step = .saveOutputs ∧
    s'.selected_chart_type = s.selected_chart_type ∧
    (s'.output_files.isSome = true ∨
      (s'.warnings = some ["No code to save"] ∧ s'.output_files = s.output_files)) := by
  by_cases hc : s.generated_code.getD "" = ""
  · simp only [save_outputs_node, hc, if_true, Except.ok.injEq, Prod.mk.injEq] at h
    obtain ⟨hs, -⟩ := h
    subst hs
    exact ⟨rfl, rfl, Or.inr ⟨rfl, rfl⟩⟩
  · cases w with
    | error e =>
      simp only [save_outputs_node, hc, if_false] at h
      exact Except.noConfusion h
    | ok u =>
      simp only [save_outputs_node, hc, if_false, Except.ok.injEq, Prod.mk.injEq] at h
      obtain ⟨hs, -⟩ := h
      subst hs
      exact ⟨rfl, rfl, Or.inl rfl⟩

/-! ## Supporting lemmas: string concatenation -/

theorem string_affix_inj (a b t₁ t₂ : String) (h : a ++ t₁ ++ b = a ++ t₂ ++ b) :
    t₁ = t₂ := by
  have hd := congrArg String.data h
  simp only [String.data_append] at hd
  exact String.ext (List.append_cancel_left (List.append_cancel_right hd))

theorem py_ne_html (t₃ t₄ : String) :
    ("chart_" ++ t₃ ++ ".py" : String) ≠ "chart_" ++ t₄ ++ ".html" := by
  intro h
  have hd := congrArg (fun s : String => s.data.reverse.head?) h
  simp only [String.data_append, List.reverse_append] at hd
  simp at hd

/-! ## Claims -/

/-- C2 (counterexample): with an error entry already accumulated after the
data-generation stage, the compiled graph still routes to
`search_knowledge_base` — not to the `error_handler` stage — because every
edge added by `setup_chart_generation_graph` is unconditional. -/
theorem C2_counterexample :
    errDemoState.errors = some ["boom"] ∧
    routeAfter errDemoState "generate_data" = some "search_knowledge_base" ∧
    "search_knowledge_base" ≠ "error_handler" := by
  refine ⟨rfl, by decide, by decide⟩

/-- C2 (amended): routing in the compiled graph is fully static: it cannot
observe the shared state, and no edge targets the error-summarization node
(`error_handler` is unreachable). The error short-circuit exists only in the
unused `make_supervisor_node` closure, and even there it jumps to the
terminal `END` (with `current_step = ERROR`), not to `error_handler`. -/
theorem C2_static_routing :
    (∀ (s₁ s₂ : ChartAgentState) (n : String), routeAfter s₁ n = routeAfter s₂ n) ∧
    (∀ e ∈ graphEdges, e.2 ≠ "error_handler") ∧
    (∀ (flow : List (String × String)) (s : ChartAgentState) (err : String)
        (errs : List String), s.errors = some (err :: errs) →
      supervisor_node flow s = (endNode, SupervisorUpdate.stepError)) := by
  refine ⟨fun s₁ s₂ n => rfl, by decide, ?_⟩
  intro flow s err errs h
  simp only [supervisor_node, h]

/-- C2 (witness for the amended theorem): instantiation at concrete inputs. -/
theorem C2_static_routing_witness :
    routeAfter errDemoState "save_outputs" = routeAfter (initialState reqDemo) "save_outputs" ∧
    ("generate_data", "search_knowledge_base").2 ≠ "error_handler" ∧
    supervisor_node [] errDemoState = (endNode, SupervisorUpdate.stepError) :=
  ⟨C2_static_routing.1 errDemoState (initialState reqDemo) "save_outputs",
   C2_static_routing.2.1 ("generate_data", "search_knowledge_base") (by decide),
   C2_static_routing.2.2 [] errDemoState "boom" [] rfl⟩

/-- C3 (counterexample): when the data-synthesis LLM call fails (or its
reply is unparseable), the dataset placed into the state is the generator's
internal 12-month fallback, not the 6-month `labels`/`values` series the
claim names. -/
theorem C3_counterexample :
    (generate_data_node (initialState reqDemo) (.error "API error") (.ok ())
        "20240101_000000").generated_data = some simpleGeneratorFallback ∧
    simpleGeneratorFallback ≠ nodeFallbackData := by
  refine ⟨rfl, by decide⟩

/-- C3 (amended): on a failed or unparseable data-synthesis LLM call the
dataset placed into the pipeline state equals the generator's fixed
12-month fallback (`months` Jan–Dec, `values` 100–200, `category` A×6/B×6);
the node's own 6-month `labels`/`values` fallback is emitted only when the
node body itself raises (import failure or the reference-JSON write). -/
theorem C3_fallback (s : ChartAgentState) (e : String) (ts : String) :
    (generate_data_node s (.error e) (.ok ()) ts).generated_data =
      some simpleGeneratorFallback ∧
    (∀ m : String, (generate_data_node s (.error e) (.error m) ts).generated_data =
      some nodeFallbackData) :=
  ⟨rfl, fun _ => rfl⟩

/-- C4 (counterexample): the reply "bar" is not an exact member of the
available list, the description contains the keyword "bar" whose type "Bar"
is available, yet selection returns "Line": keyword matching is *not*
applied to a non-member reply (it runs only when the call raises). -/
theorem C4_counterexample :
    select_chart_type_with_llm "make a bar chart" ["Bar", "Line"] (.ok "bar") = "Line" ∧
    keywordLookup keywordMap (pyLower "make a bar chart") ["Bar", "Line"] = "Bar" := by
  refine ⟨by decide, by decide⟩

/-- C4 (amended): a returned text that is not an exact member of the
available list resolves directly to the default "Line" without consulting
the keyword table; keyword matching runs only when the LLM call raises, in
which case the first table entry (in insertion order) whose keyword occurs
in the lowered description and whose type is available is selected, and
"Line" is returned only when no entry matches. -/
theorem C4_selection :
    (∀ (desc : String) (avail : List String) (content : String),
      avail.contains (pyStrip content) = false →
      select_chart_type_with_llm desc avail (.ok content) = "Line") ∧
    (∀ (desc : String) (avail : List String) (e : String),
      (∀ p ∈ keywordMap, (pyIn p.1 (pyLower desc) && avail.contains p.2) = false) →
      select_chart_type_with_llm desc avail (.error e) = "Line") ∧
    (∀ (desc : String) (avail : List String) (e : String)
        (pre : List (String × String)) (k t : String) (post : List (String × String)),
      keywordMap = pre ++ (k, t) :: post →
      (∀ p ∈ pre, (pyIn p.1 (pyLower desc) && avail.contains p.2) = false) →
      (pyIn k (pyLower desc) && avail.contains t) = true →
      select_chart_type_with_llm desc avail (.error e) = t) := by
  refine ⟨?_, ?_, ?_⟩
  · intro desc avail content h
    simp only [select_chart_type_with_llm, h, Bool.false_eq_true, if_false]
  · intro desc avail e h
    exact keywordLookup_no_match keywordMap (pyLower desc) avail h
  · intro desc avail e pre k t post hsplit hpre hk
    show keywordLookup keywordMap (pyLower desc) avail = t
    rw [hsplit]
    exact keywordLookup_first pre k t post (pyLower desc) avail hpre hk

/-- C4 (witness for the amended theorem): instantiation at concrete inputs. -/
theorem C4_selection_witness :
    select_chart_type_with_llm "make a bar chart" ["Bar", "Line"] (.ok "bar") = "Line" ∧
    select_chart_type_with_llm "plot something odd" ["Bar"] (.error "down") = "Line" ∧
    select_chart_type_with_llm "make a bar chart" ["Bar", "Line"] (.error "down") = "Bar" :=
  ⟨C4_selection.1 "make a bar chart" ["Bar", "Line"] "bar" (by decide),
   C4_selection.2.1 "plot something odd" ["Bar"] "down" (by decide),
   C4_selection.2.2 "make a bar chart" ["Bar", "Line"] "down"
     [("line", "Line"), ("trend", "Line"), ("time series", "Line")] "bar" "Bar"
     (keywordMap.drop 4) (by decide) (by decide) (by decide)⟩

/-- C8: a stripped LLM reply that is not a member of the available-types
list always resolves to the default fallback type "Line". -/
theorem C8_invalid_reply (desc : String) (avail : List String) (content : String)
    (h : avail.contains (pyStrip content) = false) :
    select_chart_type_with_llm desc avail (.ok content) = "Line" := by
  simp only [select_chart_type_with_llm, h, Bool.false_eq_true, if_false]

/-- C8 (witness): "Pie" is not among `["Bar"]`, so selection yields "Line". -/
theorem C8_invalid_reply_witness :
    select_chart_type_with_llm "show data" ["Bar"] (.ok "Pie") = "Line" :=
  C8_invalid_reply "show data" ["Bar"] "Pie" (by decide)

/-- C9: the timestamped output filenames `chart_<ts>.py` / `chart_<ts>.html`
are injective in the timestamp, and a code filename never equals a chart
filename, so two runs with distinct timestamps never collide. -/
theorem C9_filenames_injective (t₁ t₂ : String) (h : t₁ ≠ t₂) :
    codeFilename t₁ ≠ codeFilename t₂ ∧
    chartFilename t₁ ≠ chartFilename t₂ ∧
    (∀ t₃ t₄ : String, codeFilename t₃ ≠ chartFilename t₄) := by
  refine ⟨?_, ?_, fun t₃ t₄ => py_ne_html t₃ t₄⟩
  · intro he
    exact h (string_affix_inj "chart_" ".py" t₁ t₂ he)
  · intro he
    exact h (string_affix_inj "chart_" ".html" t₁ t₂ he)

/-- C9 (witness): two concrete distinct timestamps give distinct files. -/
theorem C9_filenames_injective_witness :
    codeFilename "20250101_120000" ≠ codeFilename "20250101_120001" ∧
    chartFilename "20250101_120000" ≠ chartFilename "20250101_120001" ∧
    (∀ t₃ t₄ : String, codeFilename t₃ ≠ chartFilename t₄) :=
  C9_filenames_injective "20250101_120000" "20250101_120001" (by decide)

/-- C10: the chart-type selector always returns a member of the available
list or the literal "Line"; consequently the knowledge-base node always
stores a non-null selected type and a non-null example record, substituting
the hardcoded snippet when no example file could be read. -/
theorem C10_selector_invariants :
    (∀ (desc : String) (avail : List String) (llm : Except String String),
      avail.contains (select_chart_type_with_llm desc avail llm) = true ∨
      select_chart_type_with_llm desc avail llm = "Line") ∧
    (∀ (s : ChartAgentState) (g : List String) (llm : Except String String)
        (ex : Option String),
      (search_knowledge_base_node s g llm ex).selected_chart_type.isSome = true ∧
      (search_knowledge_base_node s g llm ex).chart_examples.isSome = true ∧
      (search_knowledge_base_node s g llm none).chart_examples =
        some [("example", fallbackExampleCode)]) := by
  refine ⟨?_, ?_⟩
  · intro desc avail llm
    cases llm with
    | ok content =>
      simp only [select_chart_type_with_llm]
      by_cases h : avail.contains (pyStrip content) = true
      · rw [if_pos h]; exact Or.inl h
      · rw [if_neg h]; exact Or.inr rfl
    | error e =>
      rcases keywordLookup_closed keywordMap (pyLower desc) avail with h | h
      · exact Or.inr h
      · exact Or.inl h
  · intro s g llm ex
    exact ⟨rfl, rfl, rfl⟩

/-- C5 (counterexample): a run of the output stage whose child process exits
non-zero leaves the state's warnings list untouched (`none`, so no warning
is recorded on the pipeline state), even though the code file is written and
the chart entry is `None`. -/
theorem C5_counterexample :
    (save_outputs_node saveDemoState "results" "20240101_000000" (.ok ())
        (.ok (1, "Traceback")) false).map
      (fun pr => (pr.1.warnings, pr.1.output_files, pr.2.map (·.1))) =
    .ok (none,
         some { code := "results/chart_20240101_000000.py", chart := none,
                data := some "/tmp/d.json" },
         ["results/chart_20240101_000000.py"]) := by
  decide

/-- C5 (amended): on a non-zero exit or a timeout of the spawned child, the
output stage leaves the state's warnings list unchanged (the failure is only
described in the appended message and the log), the code file is still
written to disk, and the chart entry of the output-files record is `None`
exactly when the chart file does not exist afterwards. -/
theorem C5_exec_failure (s : ChartAgentState) (path ts : String) (run : RunOutcome)
    (ce : Bool) (code : String) (hcode : s.generated_code = some code)
    (hne : code ≠ "") (hfail : runFailed run) :
    (save_outputs_node s path ts (.ok ()) run ce).map (fun pr => pr.1.warnings) =
      .ok s.warnings ∧
    (save_outputs_node s path ts (.ok ()) run ce).map (fun pr => pr.2.map (·.1)) =
      .ok [path ++ "/" ++ codeFilename ts] ∧
    (save_outputs_node s path ts (.ok ()) run ce).map (fun pr => pr.1.output_files) =
      .ok (some { code := path ++ "/" ++ codeFilename ts,
                  chart := if ce = true then some (path ++ "/" ++ chartFilename ts)
                           else none,
                  data := s.data_source }) := by
  have hcond : ¬(s.generated_code.getD "" = "") := by
    rw [hcode]
    exact hne
  refine ⟨?_, ?_, ?_⟩ <;>
    simp only [save_outputs_node, hcond, if_false, Except.map, List.map_cons, List.map_nil]

/-- C5 (witness for the amended theorem): a concrete timed-out run. -/
theorem C5_exec_failure_witness :
    (save_outputs_node saveDemoState "results" "20240101_000000" (.ok ())
        (.error "Command timed out after 10 seconds") false).map
      (fun pr => pr.1.warnings) = .ok saveDemoState.warnings ∧
    (save_outputs_node saveDemoState "results" "20240101_000000" (.ok ())
        (.error "Command timed out after 10 seconds") false).map
      (fun pr => pr.2.map (·.1)) = .ok ["results/" ++ codeFilename "20240101_000000"] ∧
    (save_outputs_node saveDemoState "results" "20240101_000000" (.ok ())
        (.error "Command timed out after 10 seconds") false).map
      (fun pr => pr.1.output_files) =
      .ok (some { code := "results/" ++ codeFilename "20240101_000000",
                  chart := if false = true
                           then some ("results/" ++ chartFilename "20240101_000000")
                           else none,
                  data := saveDemoState.data_source }) :=
  C5_exec_failure saveDemoState "results" "20240101_000000"
    (.error "Command timed out after 10 seconds") false "b.render('x.html')"
    rfl (by decide) trivial

/-- C7: the output-path substitution leaves code without any occurrence of
the render-call pattern unchanged, and rewrites each leftmost occurrence of
the pattern into a render call on the timestamped chart path, continuing
after the match. -/
theorem C7_render_rewrite (chartPath code : String) :
    (hasRenderCall code.data = false → renderSub chartPath code = code) ∧
    (∀ (pre suf rest : List Char), code.data = pre ++ suf →
      matchRender suf = some rest →
      (∀ t ∈ code.data.tails, suf.length < t.length → matchRender t = none) →
      renderSub chartPath code =
        String.mk (pre ++ renderRepl chartPath ++ subAux (renderRepl chartPath) rest)) := by
  constructor
  · intro h
    show String.mk (subAux (renderRepl chartPath) code.data) = code
    rw [subAux_of_no_match _ _ h]
  · intro pre suf rest hsplit hm hfirst
    show String.mk (subAux (renderRepl chartPath) code.data) = _
    rw [hsplit, subAux_decomp (renderRepl chartPath) pre suf rest hm
      (fun t ht hl => hfirst t (hsplit ▸ ht) hl)]

/-- C7 (witness): a no-match code string is preserved; a concrete render
call is rewritten to the chart path. -/
theorem C7_render_rewrite_witness :
    renderSub "P.html" "print(1)" = "print(1)" ∧
    renderSub "P.html" "a.render('u')b" =
      String.mk ("a".data ++ renderRepl "P.html" ++
        subAux (renderRepl "P.html") "b".data) :=
  ⟨(C7_render_rewrite "P.html" "print(1)").1 (by decide),
   (C7_render_rewrite "P.html" "a.render('u')b").2 "a".data ".render('u')b".data
     "b".data (by decide) (by decide) (by decide)⟩

/-- C1 (counterexample): when the code-generation LLM returns empty text,
the pipeline completes with a success flag of `true` and a non-null chart
type, yet the output-files record is absent — contradicting the claimed
dichotomy. -/
theorem C1_counterexample :
    (generate_chart_async reqDemo { fxDemo with codeLLM := .ok "" }).success = true ∧
    (generate_chart_async reqDemo { fxDemo with codeLLM := .ok "" }).chart_type =
      some "Bar" ∧
    (generate_chart_async reqDemo { fxDemo with codeLLM := .ok "" }).output_files =
      none := by
  refine ⟨by decide, by decide, by decide⟩

/-- C1 (amended): every result either has a success flag of `true` with a
non-null chart type and either an output-files record or the "No code to
save" warning (the latter only when the generated code is empty), or a
success flag of `false` with a singleton (hence non-empty) error list. -/
theorem C1_result_shape (req : ChartRequest) (fx : Effects) :
    ((generate_chart_async req fx).success = true ∧
     (generate_chart_async req fx).chart_type.isSome = true ∧
     ((generate_chart_async req fx).output_files.isSome = true ∨
      (generate_chart_async req fx).warnings = some ["No code to save"])) ∨
    ((generate_chart_async req fx).success = false ∧
     ∃ e, (generate_chart_async req fx).errors = some [e]) := by
  cases h : ainvoke req fx with
  | error e =>
    right
    refine ⟨?_, e, ?_⟩ <;> simp [generate_chart_async, h]
  | ok pair =>
    obtain ⟨fs, files⟩ := pair
    left
    have h' : save_outputs_node
        (generate_code_node
          (search_knowledge_base_node
            (generate_data_node (analyze_request_node (initialState req))
              fx.dataLLM fx.dataNodeTry fx.dataTs)
            fx.galleryTypes fx.kbLLM fx.exampleRead)
          fx.codeNodeTry fx.codeLLM fx.theme)
        fx.resultsPath fx.saveTs fx.saveWrite fx.saveRun fx.chartExists =
        .ok (fs, files) := h
    obtain ⟨hstep, hsel, hout⟩ := save_outputs_ok_fields _ _ _ _ _ _ _ _ h'
    rw [generate_code_node_selected, search_kb_selected] at hsel
    simp only [generate_chart_async, h]
    refine ⟨?_, ?_, ?_⟩
    · rw [hstep]
      rfl
    · rw [hsel]
      rfl
    · rcases hout with hsome | ⟨hw, -⟩
      · exact Or.inl hsome
      · exact Or.inr hw

/-- C6 (counterexample): a failing code-file write inside the output stage
is not caught by the stage (no fallback is substituted there): the whole
graph run aborts with the exception, which only the pipeline boundary
converts into a failure result. -/
theorem C6_counterexample :
    ainvoke reqDemo { fxDemo with saveWrite := .error "Permission denied" } =
      .error "Permission denied" := by
  decide

/-- C6 (amended): no exception escapes the pipeline boundary: every run
yields a result; when a stage raises internally the boundary handler turns
the exception into a result with success `false` and the message as the
single entry of the errors list. (Not every stage catches its own failures
locally — the output stage's file write propagates — but the failure still
surfaces only in the errors list of the final result.) -/
theorem C6_boundary (req : ChartRequest) (fx : Effects) :
    (generate_chart_async req fx).success = true ∨
    (∃ e, ainvoke req fx = .error e ∧
      (generate_chart_async req fx).success = false ∧
      (generate_chart_async req fx).errors = some [e]) := by
  cases h : ainvoke req fx with
  | error e =>
    right
    refine ⟨e, rfl, ?_, ?_⟩ <;> simp [generate_chart_async, h]
  | ok pair =>
    obtain ⟨fs, files⟩ := pair
    left
    have h' : save_outputs_node
        (generate_code_node
          (search_knowledge_base_node
            (generate_data_node (analyze_request_node (initialState req))
              fx.dataLLM fx.dataNodeTry fx.dataTs)
            fx.galleryTypes fx.kbLLM fx.exampleRead)
          fx.codeNodeTry fx.codeLLM fx.theme)
        fx.resultsPath fx.saveTs fx.saveWrite fx.saveRun fx.chartExists =
        .ok (fs, files) := h
    obtain ⟨hstep, -, -⟩ := save_outputs_ok_fields _ _ _ _ _ _ _ _ h'
    simp only [generate_chart_async, h]
    rw [hstep]
    rfl

end ChartAgent
